import Mathlib

/-!
Shallow embedding of the query-construction and caching layer of the
tt-osm-changeset-analyzer repository (src/utils.py, src/main.py,
src/datastructures.py), together with theorems checking the
natural-language specification against it.

Conventions:
* Python `int` is modelled as `Int`; Python `None` as `Option.none`.
* Python strings are Lean `String`s; `str.format(year=...)` is modelled by
  `pyFormat`, which substitutes every occurrence of the `{year}`
  placeholder (the only placeholder appearing in this repository's
  templates).
* SQL queries built by `main.py` are modelled twice: as the exact query
  text (a `String`, for claims about query construction) and as an
  executable relational semantics over in-memory partitions (for claims
  about what the queries compute).
-/

namespace OsmAnalyzer

/-- Model of Python `str.format(year=v)` on the templates used in this
repository: every occurrence of the `{year}` placeholder in the character
list is replaced by `value`. -/
def substYear (value : List Char) : List Char → List Char
  | '\x7b' :: 'y' :: 'e' :: 'a' :: 'r' :: '\x7d' :: rest => value ++ substYear value rest
  | c :: rest => c :: substYear value rest
  | [] => []

/-- `template.format(year=value)` for a string `value`. -/
def pyFormat (template value : String) : String :=
  String.mk (substYear value.toList template.toList)

/-- `template.format(year=year)` for an integer `year` (Python formats the
integer with `str`). -/
def pyFormatYear (template : String) (year : Int) : String :=
  pyFormat template (toString year)

/-- Python `range(a, b)` over integers, as the list `[a, a+1, ..., b-1]`. -/
def intRange (a b : Int) : List Int :=
  (List.range (b - a).toNat).map (fun i : Nat => a + (i : Int))

/-- Thousands grouping on a reversed digit list: after every three
characters (counted from the least significant end) a `,` is inserted.
Models the `,` option of Python's format spec. -/
def groupDigitsRev : List Char → List Char
  | a :: b :: c :: d :: rest => a :: b :: c :: ',' :: groupDigitsRev (d :: rest)
  | l => l

/-- The digits of `n` with thousands separators, as a character list. -/
def formatThousandsNat (n : Nat) : List Char :=
  (groupDigitsRev (toString n).toList.reverse).reverse

/-- Model of Python `f"{x:+,d}"`: an explicit sign character followed by
the absolute value's digits grouped with thousands separators. -/
def formatSignedInt (x : Int) : String :=
  String.mk ((if x < 0 then '-' else '+') :: formatThousandsNat x.natAbs)

/-- src/utils.py `get_delta`. -/
def get_delta (current_value : Int) (previous_value : Option Int) : Option String :=
  match previous_value with
  | none => none
  | some p => some (formatSignedInt (current_value - p))

/-- src/utils.py `stringify`. -/
def stringify (path : String) : String :=
  "'" ++ path ++ "'"

/-- src/utils.py `paths_for_years`. -/
def paths_for_years (start_year end_year : Int) (url_template : String) : List String :=
  (intRange start_year (end_year + 1)).map
    (fun year => stringify (pyFormatYear url_template year))

/-- The ordered prefix-pattern list of the `CASE` expression in
src/main.py `most_popular_editors`: each entry is
(`LIKE` prefix, resulting label), in source order. -/
def editorPatterns : List (String × String) :=
  [("iD", "iD"), ("JOSM", "JOSM"), ("Level0", "Level0"),
   ("StreetComplete", "StreetComplete"), ("RapiD", "RapiD"), ("Rapid", "RapiD"),
   ("Potlach", "Potlach"), ("Potlatch", "Potlatch"), ("Go Map!!", "Go Map!!"),
   ("Merkaartor", "Merkaartor"), ("OsmAnd", "OsmAnd"), ("MAPS.ME", "MAPS.ME"),
   ("Vespucci", "Vespucci"), ("Organic Maps", "Organic Maps"),
   ("ArcGIS Editor", "ArcGIS Editor"), ("bulk_upload.py", "bulk_upload.py"),
   ("reverter", "reverter"), ("osm-revert", "osm-revert"),
   ("Every_Door", "EveryDoor"), ("osmtools", "osmtools"), ("osmapi", "osmapi"),
   ("rosemary", "rosemary"), ("Globe", "Globe"), ("PythonOsmApi", "PythonOsmApi"),
   ("bot-source-cadastre.py", "bot-source-cadastre.py"), ("upload.py", "upload.py"),
   ("osm-budynki-orto-import", "osm-budynki-orto-import")]

/-- Matching of a `LIKE` pattern prefix against the start of a value:
`_` in the pattern matches exactly one arbitrary character, any other
pattern character matches itself literally, and an exhausted pattern
matches (the pattern's trailing `%` matches the remaining characters). -/
def likeCharsMatch : List Char → List Char → Bool
  | [], _ => true
  | '_' :: ps, _ :: cs => likeCharsMatch ps cs
  | '_' :: _, [] => false
  | p :: ps, c :: cs => p = c && likeCharsMatch ps cs
  | _ :: _, [] => false

/-- `v LIKE 'pat%'` for the patterns of the `most_popular_editors`
query: `pat` may contain the `_` single-character wildcard (as
`Every_Door%` and `bulk_upload.py%` do); none of these patterns contains
an interior `%` or an escape clause. -/
def likeMatch (pat v : String) : Bool :=
  likeCharsMatch pat.toList v.toList

/-- First-match evaluation of an ordered pattern list, as SQL `CASE`
evaluates its `WHEN` arms: the label of the first pattern that is a prefix
of `v`, or `none` when no pattern matches. -/
def matchEditorPatterns : List (String × String) → String → Option String
  | [], _ => none
  | p :: rest, v => if likeMatch p.1 v then some p.2 else matchEditorPatterns rest v

/-- The editor label the `CASE` expression assigns to a `created_by`
value: a SQL `NULL` (`none`) matches no `LIKE` arm and falls through to
`ELSE coalesce(created_by, '<unknown>')`. -/
def classifyEditor (created_by : Option String) : String :=
  match created_by with
  | none => "<unknown>"
  | some v =>
    match matchEditorPatterns editorPatterns v with
    | some label => label
    | none => v

/-- src/main.py `year_stats`: the exact query text built and executed
(the f-string after `.strip()`). -/
def year_stats_query (year : Int) (url_template : String) : String :=
  "SELECT\n    count(*) number_of_changesets,\n    count(distinct uid) number_of_unique_users,\n    sum(num_changes) number_of_object_changes,\n    sum(comments_count) number_of_comments\nFROM '"
    ++ pyFormatYear url_template year ++ "'"

/-- src/main.py `get_sample_data`: the exact query text built. -/
def get_sample_data_query (year : Int) (url_template : String) : String :=
  "SELECT *\nFROM '" ++ pyFormatYear url_template year ++ "'\nLIMIT 10"

/-- src/main.py `min_max_timestamps`: the exact query text built
(`url_template.format(year='*')`). -/
def min_max_query (url_template : String) : String :=
  "SELECT\n    min(created_at) start_range,\n    max(created_at) end_range\nFROM '"
    ++ pyFormat url_template "*" ++ "'"

/-- src/main.py: `year_options = tuple(range(2005, max_year + 1))`, the
presentation layer's selectable years. -/
def year_options (max_year : Int) : List Int :=
  intRange 2005 (max_year + 1)

/-- Descending order on aggregated editor rows
(label, summed object changes, changeset count): `ORDER BY 2 DESC`. -/
def editorRel (a b : String × Int × Nat) : Prop :=
  b.2.1 ≤ a.2.1

instance : DecidableRel editorRel :=
  fun a b => inferInstanceAs (Decidable (b.2.1 ≤ a.2.1))

instance : IsTrans (String × Int × Nat) editorRel :=
  ⟨fun _ _ _ h1 h2 => le_trans h2 h1⟩

instance : IsTotal (String × Int × Nat) editorRel :=
  ⟨fun a b => Int.le_total b.2.1 a.2.1⟩

/-- Relational semantics of the `most_popular_editors` query on a year's
partition, each input row being (`created_by`, `num_changes`): label every
row by `classifyEditor`, group by label, sum `num_changes` as an exact
integer (the `::bigint` cast) and count rows per group, order descending
by the sum (`ORDER BY 2 DESC`), keep the first 25 groups (`LIMIT 25`). -/
def most_popular_editors_result (rows : List (Option String × Int)) :
    List (String × Int × Nat) :=
  let labeled := rows.map (fun r => (classifyEditor r.1, r.2))
  let agg := (labeled.map Prod.fst).dedup.map (fun l =>
    (l, ((labeled.filter (fun r => decide (r.1 = l))).map Prod.snd).sum,
        (labeled.filter (fun r => decide (r.1 = l))).length))
  (List.insertionSort editorRel agg).take 25

/-- `coalesce(locale, '<unknown>')`. -/
def localeLabel (locale : Option String) : String :=
  locale.getD "<unknown>"

/-- Descending order on aggregated locale rows
(label, changeset count, percentage text): `ORDER BY 2 DESC`. -/
def localeRel (a b : String × Nat × String) : Prop :=
  b.2.1 ≤ a.2.1

instance : DecidableRel localeRel :=
  fun a b => inferInstanceAs (Decidable (b.2.1 ≤ a.2.1))

instance : IsTrans (String × Nat × String) localeRel :=
  ⟨fun _ _ _ h1 h2 => le_trans h2 h1⟩

instance : IsTotal (String × Nat × String) localeRel :=
  ⟨fun a b => Nat.le_total b.2.1 a.2.1⟩

/-- Relational semantics of the `most_reported_locale` query on a year's
partition, each input row being its `locale` value: group by
`coalesce(locale, '<unknown>')`, count rows per group, put in the third
column the engine's rendering `render count total` of
`round(100.0 * count(*) / total, 2) || '%'` (a `DOUBLE` computation —
float division, float rounding, shortest-representation cast to
`VARCHAR` — which this embedding keeps abstract rather than fixing a
decimal text format), order descending by count (`ORDER BY 2 DESC`),
keep the first 15 groups (`LIMIT 15`). -/
def most_reported_locale_rows (render : Nat → Nat → String)
    (rows : List (Option String)) : List (String × Nat × String) :=
  let labeled := rows.map localeLabel
  let agg := labeled.dedup.map (fun l =>
    (l, (labeled.filter (fun x => decide (x = l))).length,
        render (labeled.filter (fun x => decide (x = l))).length rows.length))
  (List.insertionSort localeRel agg).take 15

/-- src/main.py `new_users`: the years whose partitions the
`users_who_previously_edited` CTE scans, `paths_for_years(2005, year - 1)`
at the level of years. -/
def new_users_prior_years (year : Int) : List Int :=
  intRange 2005 (year - 1 + 1)

/-- src/main.py `new_users`: the exact query text built — the
prior-years CTE scans `parquet_scan([...])` over
`paths_for_years(2005, year - 1)` joined with `",\n" + " " * 8`, so for
`year = 2005` the scan list in the query is empty. -/
def new_users_query (year : Int) (url_template : String) : String :=
  "WITH\nusers_who_previously_edited as (\n    SELECT DISTINCT uid\n    FROM parquet_scan([\n        "
    ++ String.intercalate ",\n        " (paths_for_years 2005 (year - 1) url_template)
    ++ "\n    ])\n),\nusers_who_edited_current_year as (\n    SELECT DISTINCT uid\n    FROM parquet_scan('"
    ++ pyFormatYear url_template year
    ++ "')\n)\nSELECT\n    CASE\n        WHEN pe.uid IS NULL THEN true\n        ELSE false\n    END users_who_did_not_edit_before,\n    count(*) number_of_users\nFROM users_who_edited_current_year cu\nLEFT JOIN users_who_previously_edited pe USING(uid)\nGROUP BY 1"

/-- src/datastructures.py `DatasetStats` (timestamps kept abstract). -/
structure DatasetStats (τ : Type) where
  query : String
  min_opened_date : τ
  max_opened_date : τ

/-- src/datastructures.py `StatsForYear` (cell values kept abstract). -/
structure StatsForYear (α : Type) where
  query : String
  number_of_changesets : α
  number_of_unique_users : α
  number_of_object_changes : α
  number_of_comments : α

/-- src/datastructures.py `DataFrameResult` (the data frame kept
abstract). -/
structure DataFrameResult (δ : Type) where
  query : String
  df : δ

/-- src/main.py `fetch_df`: executes `query` through the engine
(abstracted as `remote`) and pairs the resulting table with the query
text. -/
def fetch_df {δ : Type} (remote : String → δ) (query : String) : DataFrameResult δ :=
  ⟨query, remote query⟩

/-- src/main.py `min_max_timestamps`: builds the range query, executes it
and bundles the scalar pair with the query text. -/
def min_max_timestamps {τ : Type} (remote : String → τ × τ) (url_template : String) :
    DatasetStats τ :=
  ⟨min_max_query url_template,
   (remote (min_max_query url_template)).1,
   (remote (min_max_query url_template)).2⟩

/-- src/main.py `year_stats`: builds the per-year stats query, executes
it and bundles the four scalars with the query text. -/
def year_stats {α : Type} (remote : String → α × α × α × α) (year : Int)
    (url_template : String) : StatsForYear α :=
  ⟨year_stats_query year url_template,
   (remote (year_stats_query year url_template)).1,
   (remote (year_stats_query year url_template)).2.1,
   (remote (year_stats_query year url_template)).2.2.1,
   (remote (year_stats_query year url_template)).2.2.2⟩

/-- State model of the `@st.experimental_memo` cache wrapping the
Executor: the state is the list of (query text, result) entries plus a
count of remote fetches performed. A call looks the exact query text up;
on a hit it returns the cached value and leaves the state unchanged, on a
miss it fetches, records the entry and increments the fetch count. -/
def memoCall {δ : Type} (remote : String → δ) (st : List (String × δ) × Nat)
    (q : String) : δ × (List (String × δ) × Nat) :=
  match st.1.find? (fun e => decide (e.1 = q)) with
  | some e => (e.2, st)
  | none => (remote q, ((q, remote q) :: st.1, st.2 + 1))

/-- C10: a zero difference between current and previous is rendered with
an explicit plus sign: for every integer `v`, `get_delta v (some v)` is
`some "+0"`, not `none` and not an unsigned `"0"`. -/
theorem get_delta_zero_plus (v : Int) : get_delta v (some v) = some "+0" := by
  show some (formatSignedInt (v - v)) = some "+0"
  rw [sub_self]
  rfl

/-- C1: `paths_for_years start end t` has exactly `end - start + 1`
entries when `start ≤ end` (and in general `(end - start + 1).toNat`),
its `i`-th entry is the template with year `start + i` substituted and
wrapped in single quotes — so entries are in strictly ascending year
order — and for `start > end` it is the empty list. -/
theorem paths_for_years_spec (s e : Int) (t : String) :
    (paths_for_years s e t).length = (e - s + 1).toNat ∧
    (∀ (i : Nat) (hi : i < (paths_for_years s e t).length),
      (paths_for_years s e t).get ⟨i, hi⟩ = stringify (pyFormatYear t (s + (i : Int)))) ∧
    (e < s → paths_for_years s e t = []) := by
  refine ⟨?_, ?_, ?_⟩
  · simp only [paths_for_years, intRange, List.length_map, List.length_range]
    omega
  · intro i hi
    simp [paths_for_years, intRange]
  · intro h
    have h0 : (e + 1 - s).toNat = 0 := by omega
    simp [paths_for_years, intRange, h0]

/-- Witness for C1 at concrete inputs: the second entry for the range
2005–2006 and the empty result for a reversed range. -/
theorem paths_for_years_spec_witness :
    (paths_for_years 2005 2006 "a/{year}").get ⟨1, by decide⟩ = "'a/2006'" ∧
    paths_for_years 7 3 "x" = [] :=
  ⟨((paths_for_years_spec 2005 2006 "a/{year}").2.1 1 (by decide)).trans (by decide),
   (paths_for_years_spec 7 3 "x").2.2 (by decide)⟩

/-- C5 counterexample: for the out-of-range year 1999 (below the
dataset's minimum partition year 2005) the query builders silently
produce a well-formed query addressing the nonexistent 1999 partition —
they do not treat the call as a caller error. -/
theorem year_builders_silent_out_of_range :
    year_stats_query 1999 "s3://bucket/{year}.parquet" =
      "SELECT\n    count(*) number_of_changesets,\n    count(distinct uid) number_of_unique_users,\n    sum(num_changes) number_of_object_changes,\n    sum(comments_count) number_of_comments\nFROM 's3://bucket/1999.parquet'" ∧
    get_sample_data_query 1999 "s3://bucket/{year}.parquet" =
      "SELECT *\nFROM 's3://bucket/1999.parquet'\nLIMIT 10" :=
  ⟨rfl, rfl⟩

/-- C5 amended: the query builders perform no year validation — for every
integer year, in range or not, they return the query with that year's
path substituted — and the year bound is enforced only by the
presentation layer, whose selectable year options all lie in
`[2005, max_year]`. -/
theorem year_builders_no_validation :
    (∀ (year : Int) (t : String),
      year_stats_query year t =
        "SELECT\n    count(*) number_of_changesets,\n    count(distinct uid) number_of_unique_users,\n    sum(num_changes) number_of_object_changes,\n    sum(comments_count) number_of_comments\nFROM '"
          ++ pyFormatYear t year ++ "'") ∧
    (∀ (year : Int) (t : String),
      get_sample_data_query year t =
        "SELECT *\nFROM '" ++ pyFormatYear t year ++ "'\nLIMIT 10") ∧
    (∀ max_year : Int, ∀ y ∈ year_options max_year, 2005 ≤ y ∧ y ≤ max_year) := by
  refine ⟨fun _ _ => rfl, fun _ _ => rfl, ?_⟩
  intro m y hy
  simp only [year_options, intRange, List.mem_map, List.mem_range] at hy
  obtain ⟨i, hi, rfl⟩ := hy
  omega

/-- Witness for C5's amended claim: the presentation layer's options for
`max_year = 2007` contain 2006, which lies within the bound. -/
theorem year_builders_no_validation_witness :
    (2005 : Int) ≤ 2006 ∧ (2006 : Int) ≤ 2007 :=
  year_builders_no_validation.2.2 2007 2006 (by decide)

/-- C8: a second Executor call with exactly the same query text returns
a result identical to the first call's and performs no second remote
fetch (the fetch count and the cache are unchanged), and existing cache
entries are never evicted. -/
theorem executor_memo_spec {δ : Type} (remote : String → δ)
    (st : List (String × δ) × Nat) (q : String) :
    (memoCall remote (memoCall remote st q).2 q).1 = (memoCall remote st q).1 ∧
    (memoCall remote (memoCall remote st q).2 q).2 = (memoCall remote st q).2 ∧
    (∀ e ∈ st.1, e ∈ (memoCall remote st q).2.1) := by
  cases h : st.1.find? (fun e => decide (e.1 = q)) with
  | some e =>
    refine ⟨?_, ?_, ?_⟩
    · simp [memoCall, h]
    · simp [memoCall, h]
    · intro e' he'
      simpa [memoCall, h] using he'
  | none =>
    have h2 : ((q, remote q) :: st.1).find? (fun e => decide (e.1 = q)) =
        some (q, remote q) := by
      simp [List.find?]
    refine ⟨?_, ?_, ?_⟩
    · simp [memoCall, h, h2]
    · simp [memoCall, h, h2]
    · intro e' he'
      simp [memoCall, h]
      exact Or.inr he'

/-- Witness for C8 at a concrete cache state: the preexisting entry
survives a call that misses on a different query. -/
theorem executor_memo_spec_witness :
    (("a", 5) : String × Nat) ∈ (memoCall (fun _ => (0 : Nat)) ([("a", 5)], 0) "b").2.1 :=
  (executor_memo_spec (fun _ => (0 : Nat)) ([("a", 5)], 0) "b").2.2 ("a", 5) (by decide)

/-- C9: every result bundle carries exactly the query text that was
executed to produce the data it carries: `fetch_df`'s bundle pairs the
query with the engine's table for that query, `min_max_timestamps`'s
bundle pairs its range query with that query's scalar pair, and
`year_stats`'s bundle pairs its per-year query with that query's four
scalars. -/
theorem result_bundle_query_pairing {δ τ α : Type}
    (remote_df : String → δ) (q : String)
    (remote_range : String → τ × τ) (t : String)
    (remote_stats : String → α × α × α × α) (year : Int) (t2 : String) :
    ((fetch_df remote_df q).query = q ∧
      (fetch_df remote_df q).df = remote_df ((fetch_df remote_df q).query)) ∧
    ((min_max_timestamps remote_range t).query = min_max_query t ∧
      ((min_max_timestamps remote_range t).min_opened_date,
        (min_max_timestamps remote_range t).max_opened_date) =
        remote_range ((min_max_timestamps remote_range t).query)) ∧
    ((year_stats remote_stats year t2).query = year_stats_query year t2 ∧
      ((year_stats remote_stats year t2).number_of_changesets,
        (year_stats remote_stats year t2).number_of_unique_users,
        (year_stats remote_stats year t2).number_of_object_changes,
        (year_stats remote_stats year t2).number_of_comments) =
        remote_stats ((year_stats remote_stats year t2).query)) :=
  ⟨⟨rfl, rfl⟩, ⟨rfl, rfl⟩, ⟨rfl, rfl⟩⟩

theorem digitChar_ne_comma (m : Nat) (h : m < 10) : Nat.digitChar m ≠ ',' := by
  interval_cases m <;> decide

theorem comma_notMem_toDigitsCore (fuel : Nat) :
    ∀ (n : Nat) (ds : List Char), ',' ∉ ds → ',' ∉ Nat.toDigitsCore 10 fuel n ds := by
  induction fuel with
  | zero =>
    intro n ds h
    simpa [Nat.toDigitsCore] using h
  | succ fuel ih =>
    intro n ds h
    have hd : ',' ∉ Nat.digitChar (n % 10) :: ds := by
      intro hmem
      rcases List.mem_cons.mp hmem with heq | hds
      · exact digitChar_ne_comma _ (Nat.mod_lt n (by omega)) heq.symm
      · exact h hds
    simp only [Nat.toDigitsCore]
    split
    · exact hd
    · exact ih _ _ hd

theorem comma_notMem_natRepr (n : Nat) : ',' ∉ (toString n).toList := by
  have h : (toString n).toList = Nat.toDigits 10 n := rfl
  rw [h]
  exact comma_notMem_toDigitsCore _ _ _ (by simp)

theorem filter_groupDigitsRev (p : Char → Bool) (hp : p ',' = false) :
    ∀ l : List Char, (groupDigitsRev l).filter p = l.filter p
  | [] => rfl
  | [a] => rfl
  | [a, b] => rfl
  | [a, b, c] => rfl
  | a :: b :: c :: d :: rest => by
    have ih := filter_groupDigitsRev p hp (d :: rest)
    rw [groupDigitsRev]
    simp only [List.filter_cons, hp, Bool.false_eq_true, if_false, ih]

theorem formatThousandsNat_filter (n : Nat) :
    (formatThousandsNat n).filter (fun ch => decide (ch ≠ ',')) = (toString n).toList := by
  unfold formatThousandsNat
  rw [List.filter_reverse, filter_groupDigitsRev _ (by decide), List.filter_reverse,
    List.reverse_reverse]
  rw [List.filter_eq_self]
  intro a ha
  have hne : a ≠ ',' := by
    intro heq
    exact comma_notMem_natRepr n (heq ▸ ha)
  simpa using hne

/-- C2: `get_delta` returns `none` when the previous value is absent; for
two integers it returns the difference formatted with a leading explicit
sign (`+` when `previous ≤ current`, `-` otherwise) whose remaining
characters, with the thousands separators removed, are exactly the
decimal digits of `|current - previous|`; in particular
`get_delta 100 (some 80) = "+20"`, `get_delta 80 (some 100) = "-20"`, and
a large difference carries comma thousands separators. -/
theorem get_delta_format_spec :
    (∀ c : Int, get_delta c none = none) ∧
    (∀ c p : Int,
      get_delta c (some p) = some (formatSignedInt (c - p)) ∧
      (p ≤ c → (formatSignedInt (c - p)).toList.head? = some '+') ∧
      (c < p → (formatSignedInt (c - p)).toList.head? = some '-') ∧
      (formatSignedInt (c - p)).toList.tail.filter (fun ch => decide (ch ≠ ',')) =
        (toString (c - p).natAbs).toList) ∧
    get_delta 100 (some 80) = some "+20" ∧
    get_delta 80 (some 100) = some "-20" ∧
    get_delta 1234567 (some (-500)) = some "+1,235,067" := by
  refine ⟨fun _ => rfl, ?_, by decide, by decide, by decide⟩
  intro c p
  have htl : (formatSignedInt (c - p)).toList =
      (if c - p < 0 then '-' else '+') :: formatThousandsNat (c - p).natAbs := rfl
  refine ⟨rfl, ?_, ?_, ?_⟩
  · intro hpc
    have hneg : ¬ c - p < 0 := by omega
    rw [htl, if_neg hneg]
    rfl
  · intro hcp
    have hneg : c - p < 0 := by omega
    rw [htl, if_pos hneg]
    rfl
  · rw [htl, List.tail_cons]
    exact formatThousandsNat_filter _

/-- Witness for C2 at concrete inputs: the formatted delta of 7 and 3
exists and starts with an explicit plus sign. -/
theorem get_delta_format_spec_witness :
    get_delta 7 (some 3) = some (formatSignedInt ((7 : Int) - 3)) ∧
    (formatSignedInt ((7 : Int) - 3)).toList.head? = some '+' :=
  ⟨(get_delta_format_spec.2.1 7 3).1, (get_delta_format_spec.2.1 7 3).2.1 (by decide)⟩

theorem matchEditorPatterns_eq_first (v : String) (ps : List (String × String)) :
    ∀ (i : Nat) (hi : i < ps.length),
      likeMatch (ps.get ⟨i, hi⟩).1 v = true →
      (∀ (j : Nat) (hj : j < ps.length), j < i → likeMatch (ps.get ⟨j, hj⟩).1 v = false) →
      matchEditorPatterns ps v = some (ps.get ⟨i, hi⟩).2 := by
  induction ps with
  | nil =>
    intro i hi
    simp at hi
  | cons q rest ih =>
    intro i hi hm hj
    cases i with
    | zero =>
      simp only [List.get] at hm ⊢
      simp [matchEditorPatterns, hm]
    | succ k =>
      have h0 : likeMatch q.1 v = false := by
        simpa using hj 0 (by simp) (Nat.succ_pos k)
      have hrec := ih k (by simpa using hi) (by simpa using hm)
        (fun j hjl hlt => by simpa using hj (j + 1) (by simpa using hjl) (by omega))
      simp only [matchEditorPatterns, h0, Bool.false_eq_true, if_false]
      simpa using hrec

theorem matchEditorPatterns_eq_none (v : String) :
    ∀ ps : List (String × String), (∀ p ∈ ps, likeMatch p.1 v = false) →
      matchEditorPatterns ps v = none
  | [], _ => rfl
  | q :: rest, h => by
    have h0 : likeMatch q.1 v = false := h q (by simp)
    simp only [matchEditorPatterns, h0, Bool.false_eq_true, if_false]
    exact matchEditorPatterns_eq_none v rest (fun p hp => h p (by simp [hp]))

/-- C3: the editor classification is first-match-wins over the ordered
pattern list — whenever pattern `i` matches `v` and every earlier pattern
fails, the label is pattern `i`'s, regardless of later (possibly more
specific) matches; a non-null value matching no pattern classifies as the
raw value; a null value classifies as the literal `<unknown>` sentinel,
which is not the empty string. -/
theorem editor_classification_first_match :
    (∀ (v : String) (i : Nat) (hi : i < editorPatterns.length),
      likeMatch (editorPatterns.get ⟨i, hi⟩).1 v = true →
      (∀ (j : Nat) (hj : j < editorPatterns.length), j < i →
        likeMatch (editorPatterns.get ⟨j, hj⟩).1 v = false) →
      classifyEditor (some v) = (editorPatterns.get ⟨i, hi⟩).2) ∧
    (∀ v : String, (∀ p ∈ editorPatterns, likeMatch p.1 v = false) →
      classifyEditor (some v) = v) ∧
    classifyEditor none = "<unknown>" ∧
    ("<unknown>" : String) ≠ "" := by
  refine ⟨?_, ?_, rfl, by decide⟩
  · intro v i hi hm hj
    have h := matchEditorPatterns_eq_first v editorPatterns i hi hm hj
    simp [classifyEditor, h]
  · intro v h
    have h2 := matchEditorPatterns_eq_none v editorPatterns h
    simp [classifyEditor, h2]

/-- Witness for C3 at concrete inputs: `"Rapid 2.1"` matches the sixth
pattern (`Rapid` → `RapiD`) and none of the five before it, and
`"Every Door 5.0"` matches the nineteenth pattern (`Every_Door`, whose
`_` wildcard matches the space) and none of the eighteen before it. -/
theorem editor_classification_first_match_witness :
    classifyEditor (some "Rapid 2.1") = "RapiD" ∧
    classifyEditor (some "Every Door 5.0") = "EveryDoor" :=
  ⟨(editor_classification_first_match.1 "Rapid 2.1" 5 (by decide) (by decide)
      (by decide)).trans (by decide),
   (editor_classification_first_match.1 "Every Door 5.0" 18 (by decide) (by decide)
      (by decide)).trans (by decide)⟩

/-- C4 (code bug): every year in the `new_users` prior-years scan list
lies strictly before the given year, but for the earliest year 2005 the
prior-years path list is empty, so the code builds a query containing a
zero-file `parquet_scan([...])` — the engine rejects a scan over zero
files with an error instead of returning the 0-count "had prior
activity" bucket the claim describes (and the presentation layer only
renders this view for years strictly after 2005). -/
theorem new_users_query_empty_scan :
    (∀ year : Int, ∀ y ∈ new_users_prior_years year, y < year) ∧
    (∀ t : String, paths_for_years 2005 (2005 - 1) t = []) ∧
    new_users_query 2005 "files/{year}.parquet" =
      "WITH\nusers_who_previously_edited as (\n    SELECT DISTINCT uid\n    FROM parquet_scan([\n        \n    ])\n),\nusers_who_edited_current_year as (\n    SELECT DISTINCT uid\n    FROM parquet_scan('files/2005.parquet')\n)\nSELECT\n    CASE\n        WHEN pe.uid IS NULL THEN true\n        ELSE false\n    END users_who_did_not_edit_before,\n    count(*) number_of_users\nFROM users_who_edited_current_year cu\nLEFT JOIN users_who_previously_edited pe USING(uid)\nGROUP BY 1" := by
  refine ⟨?_, fun t => rfl, rfl⟩
  intro year y hy
  simp only [new_users_prior_years, intRange, List.mem_map, List.mem_range] at hy
  obtain ⟨i, hi, rfl⟩ := hy
  omega

/-- Witness for C4 at concrete inputs: 2006 is among 2007's prior-scan
years and lies strictly before it. -/
theorem new_users_query_empty_scan_witness :
    ((2006 : Int) < 2007) ∧ paths_for_years 2005 (2005 - 1) "x/{year}" = [] :=
  ⟨new_users_query_empty_scan.1 2007 2006 (by decide),
   new_users_query_empty_scan.2.1 "x/{year}"⟩

/-- C6: the editor breakdown contains at most 25 rows whatever the input
data, its rows are ordered descending by the summed object-change count,
and each row's sum is the exact integer sum of `num_changes` over the
input rows carrying that row's editor label. -/
theorem editor_breakdown_cap_order (rows : List (Option String × Int)) :
    (most_popular_editors_result rows).length ≤ 25 ∧
    List.Sorted editorRel (most_popular_editors_result rows) ∧
    (∀ r ∈ most_popular_editors_result rows,
      r.2.1 = (((rows.map (fun x => (classifyEditor x.1, x.2))).filter
        (fun x => decide (x.1 = r.1))).map Prod.snd).sum) := by
  refine ⟨List.length_take_le _ _, ?_, ?_⟩
  · exact List.Pairwise.sublist (List.take_sublist _ _)
      (List.sorted_insertionSort editorRel _)
  · intro r hr
    have hr1 : r ∈ List.insertionSort editorRel
        ((((rows.map (fun x => (classifyEditor x.1, x.2))).map Prod.fst).dedup).map (fun l =>
          (l, (((rows.map (fun x => (classifyEditor x.1, x.2))).filter
                (fun q => decide (q.1 = l))).map Prod.snd).sum,
              ((rows.map (fun x => (classifyEditor x.1, x.2))).filter
                (fun q => decide (q.1 = l))).length))) :=
      (List.take_sublist _ _).subset hr
    have hr2 := (List.perm_insertionSort editorRel _).subset hr1
    simp only [List.mem_map] at hr2
    obtain ⟨l, hl, rfl⟩ := hr2
    rfl

/-- Witness for C6 at a concrete input: the single null-attribution row
with 7 object changes yields the `<unknown>` row whose sum is exactly 7. -/
theorem editor_breakdown_cap_order_witness :
    (("<unknown>", (7 : Int), 1) : String × Int × Nat).2.1 =
      ((([((none : Option String), (7 : Int))].map (fun x => (classifyEditor x.1, x.2))).filter
        (fun x => decide (x.1 = (("<unknown>", (7 : Int), 1) : String × Int × Nat).1))).map
          Prod.snd).sum :=
  (editor_breakdown_cap_order [(none, 7)]).2.2 ("<unknown>", 7, 1) (by decide)

theorem dedup_all_eq {α : Type} [DecidableEq α] :
    ∀ (l : List α) (a : α), l ≠ [] → (∀ x ∈ l, x = a) → l.dedup = [a]
  | [], _, hne, _ => absurd rfl hne
  | x :: xs, a, _, hall => by
    have hx : x = a := hall x (by simp)
    subst hx
    cases xs with
    | nil => simp
    | cons y ys =>
      have hy : y = x := hall y (by simp)
      have hmem : x ∈ y :: ys := by simp [hy]
      rw [List.dedup_cons_of_mem hmem]
      exact dedup_all_eq (y :: ys) x (by simp) (fun z hz => hall z (by simp [hz]))

/-- C7 (code bug): the structural parts of the locale breakdown hold —
null locale maps to the `<unknown>` sentinel, at most 15 rows, ordered
descending by count, each row carrying its group's row count and the
engine's rendering of that count's share of the year's total — and a
year whose rows all carry one locale produces exactly one row whose
percentage cell is the engine's rendering of `count = total`; that exact
share is the integer 100, which the engine's `DOUBLE` pipeline (float
division, then `DOUBLE`-to-`VARCHAR` shortest-representation cast)
renders as `100.0%`, not the two-decimal `100.00%` the claim states. -/
theorem locale_breakdown_structure :
    localeLabel none = "<unknown>" ∧
    (∀ (render : Nat → Nat → String) (rows : List (Option String)),
      (most_reported_locale_rows render rows).length ≤ 15) ∧
    (∀ (render : Nat → Nat → String) (rows : List (Option String)),
      List.Sorted localeRel (most_reported_locale_rows render rows)) ∧
    (∀ (render : Nat → Nat → String) (rows : List (Option String)),
      ∀ r ∈ most_reported_locale_rows render rows,
      r.2.1 = ((rows.map localeLabel).filter (fun x => decide (x = r.1))).length ∧
      r.2.2 = render r.2.1 rows.length) ∧
    (∀ (render : Nat → Nat → String) (rows : List (Option String)) (L : String),
      rows ≠ [] → (∀ x ∈ rows, localeLabel x = L) →
      most_reported_locale_rows render rows =
        [(L, rows.length, render rows.length rows.length)]) := by
  refine ⟨rfl, fun _ _ => List.length_take_le _ _, ?_, ?_, ?_⟩
  · intro render rows
    exact List.Pairwise.sublist (List.take_sublist _ _)
      (List.sorted_insertionSort localeRel _)
  · intro render rows r hr
    have hr1 : r ∈ List.insertionSort localeRel
        ((rows.map localeLabel).dedup.map (fun l =>
          (l, ((rows.map localeLabel).filter (fun x => decide (x = l))).length,
              render ((rows.map localeLabel).filter (fun x => decide (x = l))).length
                rows.length))) :=
      (List.take_sublist _ _).subset hr
    have hr2 := (List.perm_insertionSort localeRel _).subset hr1
    simp only [List.mem_map] at hr2
    obtain ⟨l, hl, rfl⟩ := hr2
    exact ⟨rfl, rfl⟩
  · intro render rows L hne hall
    have hnemap : rows.map localeLabel ≠ [] := by
      simpa using hne
    have hmap : ∀ x ∈ rows.map localeLabel, x = L := by
      intro x hx
      simp only [List.mem_map] at hx
      obtain ⟨a, ha, rfl⟩ := hx
      exact hall a ha
    have hd : (rows.map localeLabel).dedup = [L] := dedup_all_eq _ L hnemap hmap
    have hfilter : (rows.map localeLabel).filter (fun x => decide (x = L)) =
        rows.map localeLabel := by
      rw [List.filter_eq_self]
      intro a ha
      simpa using hmap a ha
    simp only [most_reported_locale_rows, hd, List.map_cons, List.map_nil, hfilter,
      List.length_map]
    rfl

/-- Witness for C7 at a concrete input: a year with the single locale
`en` produces one row whose percentage cell is the renderer applied to
count 1 of total 1. -/
theorem locale_breakdown_structure_witness :
    most_reported_locale_rows (fun c t => toString c ++ "/" ++ toString t) [some "en"] =
      [("en", 1, "1/1")] :=
  (locale_breakdown_structure.2.2.2.2 (fun c t => toString c ++ "/" ++ toString t)
    [some "en"] "en" (by decide) (by decide)).trans (by decide)

end OsmAnalyzer
